import Mathlib

/-!
Verification of the license/subscription state-resolution core of the
brinkbyte billing server (`handlers/billing.go` over the in-memory storage
of `storage/memory.go`).

The embedding models:
* Go `time.Time` as a natural number of seconds of proleptic-Gregorian
  civil time (epoch 0000-03-01T00:00Z), with `addDate` reproducing
  `time.AddDate` (read the civil date, add the deltas, renormalize;
  month overflow rolls into years, day overflow rolls into later months);
* `int(d.Hours() / 24)` as truncated integer division of seconds by 86400;
* money (`float64` prices) as exact rationals;
* tenant/camera identifiers as lists of characters (Go byte-string slicing
  on ASCII identifiers is character slicing);
* the Go maps of `InMemoryStorage` as association lists with
  replace-or-append assignment.
-/

/-! ## Civil calendar (model of the Go `time` package date arithmetic) -/

/-- Correction term of the days-to-civil algorithm: day-of-era adjusted by
the quadrennial / centennial / quadricentennial leap corrections. -/
def nadj (d : Nat) : Nat := d - d / 1460 + d / 36524 - d / 146096

/-- Year-of-era of a day-of-era. -/
def yoeOf (d : Nat) : Nat := nadj d / 365

/-- First day-of-era of a year-of-era (years start March 1). -/
def fstart (y : Nat) : Nat := 365 * y + y / 4 - y / 100

/-- Endpoint check for one year-of-era: the year computed for the first and
the last day of year `y` is `y` itself. -/
def yearOk (y : Nat) : Bool :=
  (yoeOf (fstart y) == y) && (y == 399 || yoeOf (fstart (y + 1) - 1) == y)

/-- Check `yearOk` for all years below `n`. -/
def checkYears : Nat → Bool
  | 0 => true
  | n + 1 => yearOk n && checkYears n

/-- Year-of-era of a day-of-era within the 400-year era. -/
def cfdYoe (z : Nat) : Nat := yoeOf (z % 146097)

/-- Day-of-year of a day count (years start March 1). -/
def cfdDoy (z : Nat) : Nat := z % 146097 - fstart (cfdYoe z)

/-- Shifted month index (0 = March, ..., 11 = February). -/
def cfdMp (z : Nat) : Nat := (5 * cfdDoy z + 2) / 153

/-- Civil day-of-month (1-based) of a day count. -/
def cfdDay (z : Nat) : Nat := cfdDoy z - (153 * cfdMp z + 2) / 5 + 1

/-- Civil month (1-12) of a day count. -/
def cfdMonth (z : Nat) : Nat := if cfdMp z < 10 then cfdMp z + 3 else cfdMp z - 9

/-- Civil year of a day count. -/
def cfdYear (z : Nat) : Nat :=
  (if cfdMp z < 10 then 0 else 1) + cfdYoe z + 400 * (z / 146097)

/-- Day count of a civil date (inverse of `cfdYear`/`cfdMonth`/`cfdDay`);
the day argument may overflow the month, extra days roll forward. -/
def daysFromCivil (y m d : Nat) : Nat :=
  (if m ≤ 2 then y - 1 else y) / 400 * 146097 +
  (fstart ((if m ≤ 2 then y - 1 else y) % 400) +
   ((153 * (if 2 < m then m - 3 else m + 9) + 2) / 5 + d - 1))

/-- Seconds of civil time shifted by `dy` years, `dm` months, `dd` days, as
Go `time.AddDate`: split into day count and second-of-day, read the civil
date, add the deltas and renormalize. -/
def addDate (t dy dm dd : Nat) : Nat :=
  86400 * (daysFromCivil (cfdYear (t / 86400) + dy + (cfdMonth (t / 86400) - 1 + dm) / 12)
             ((cfdMonth (t / 86400) - 1 + dm) % 12 + 1) 1 +
           (cfdDay (t / 86400) + dd - 1)) +
  t % 86400

/-- Truncated day count between two instants, modelling
`int(time.Until(te).Hours() / 24)` evaluated at time `now` (the Go `int`
conversion truncates toward zero). -/
def daysUntil (te now : Nat) : Int := Int.tdiv ((te : Int) - (now : Int)) 86400

/-! ## Static catalog (`models/tenant.go`) -/

/-- `models.TrialMaxCameras`: maximum cameras allowed on trial. -/
def TrialMaxCameras : Nat := 2

/-- `models.TrialDurationDays`: trial period in days. -/
def TrialDurationDays : Nat := 90

/-- Growth pack metadata (`models.GrowthPackInfo`), prices as exact
rationals in AUD. -/
structure GrowthPackInfo where
  packId : String
  packName : String
  category : String
  priceMonthly : ℚ
  deriving DecidableEq

/-- `models.AvailableGrowthPacks`: the static growth-pack catalog. -/
def AvailableGrowthPacks : List GrowthPackInfo :=
  [ { packId := "pack-advanced-analytics", packName := "Advanced Analytics",
      category := "analytics", priceMonthly := 29 },
    { packId := "pack-active-transport", packName := "Active Transport",
      category := "intelligence", priceMonthly := 45 },
    { packId := "pack-cloud-storage", packName := "Cloud Storage",
      category := "data", priceMonthly := 149 },
    { packId := "pack-api-integration", packName := "API Integration",
      category := "integration", priceMonthly := 109 },
    { packId := "pack-intelligence", packName := "Intelligence",
      category := "intelligence", priceMonthly := 599 },
    { packId := "pack-emergency-vehicles", packName := "Emergency Vehicles",
      category := "industry", priceMonthly := 39 },
    { packId := "pack-retail", packName := "Retail",
      category := "industry", priceMonthly := 49 } ]

/-- `models.BaseFeatures`: features included with the base license,
keyed by category (a `none` result is a missing map key). -/
def BaseFeatures (category : String) : Option (List String) :=
  if category = "cv_models" then
    some ["person", "car", "van", "truck", "bus", "motorcycle"]
  else if category = "analytics" then
    some ["detection", "tracking", "counting", "dwell", "heatmap",
          "direction", "speed", "privacy_mask"]
  else if category = "outputs" then
    some ["edge_io", "dashboard", "email", "webhook", "api"]
  else none

/-- `models.GetGrowthPackFeatures`: features of a growth pack for a
category (a `none` result is a missing map key). -/
def GetGrowthPackFeatures (packName category : String) : Option (List String) :=
  if packName = "Advanced Analytics" then
    if category = "analytics" then
      some ["near_miss", "interaction_time", "queue_counter", "object_size"]
    else none
  else if packName = "Active Transport" then
    if category = "cv_models" then some ["bike", "scooter", "pram", "wheelchair"]
    else none
  else if packName = "Cloud Storage" then
    if category = "outputs" then
      some ["cloud_backup", "extended_retention", "encrypted_storage"]
    else none
  else if packName = "API Integration" then
    if category = "outputs" then
      some ["unlimited_api", "webhooks", "custom_integrations", "priority_support"]
    else none
  else if packName = "Intelligence" then
    if category = "llm" then
      some ["analyst_seat_full", "premium_connectors", "automated_reports"]
    else none
  else if packName = "Emergency Vehicles" then
    if category = "cv_models" then some ["police", "ambulance", "fire_fighter"]
    else none
  else if packName = "Retail" then
    if category = "cv_models" then some ["trolley", "staff", "customer"]
    else none
  else none

/-! ## Data model (`models/tenant.go` records) -/

/-- Identifiers (Go strings used as map-key material). -/
abbrev Ident := List Char

/-- `models.Tenant`. -/
structure Tenant where
  id : Ident
  name : String
  email : Option String
  status : String
  deriving DecidableEq

/-- `models.Subscription`; instants are seconds of civil time. -/
structure Subscription where
  id : String
  tenantId : Ident
  plan : String
  status : String
  camerasLicensed : Nat
  trialStartDate : Option Nat
  trialEndDate : Option Nat
  subscriptionStartDate : Option Nat
  subscriptionEndDate : Option Nat
  billingCycle : String
  deriving DecidableEq

/-- `models.GrowthPackAssignment`. -/
structure GrowthPackAssignment where
  id : String
  tenantId : Ident
  packName : String
  enabledAt : Nat
  disabledAt : Option Nat
  isEnabled : Bool
  priceMonthly : Option ℚ
  deriving DecidableEq

/-- `models.CameraLicense`. -/
structure CameraLicense where
  id : String
  cameraId : Ident
  tenantId : Ident
  deviceId : Option String
  licenseMode : String
  isValid : Bool
  validUntil : Option Nat
  enabledGrowthPacks : List String
  lastValidated : Nat
  deriving DecidableEq

/-- `models.FeatureEntitlement`. -/
structure FeatureEntitlement where
  id : String
  tenantId : Ident
  featureCategory : String
  featureName : String
  isEnabled : Bool
  quotaLimit : Int
  quotaUsed : Int
  validUntil : Option Nat
  deriving DecidableEq

/-! ## In-memory storage (`storage/memory.go`) -/

/-- Association-list lookup, modelling a Go map read with comma-ok. -/
def lookupAssoc {κ α : Type} [DecidableEq κ] : List (κ × α) → κ → Option α
  | [], _ => none
  | e :: rest, k => if e.1 = k then some e.2 else lookupAssoc rest k

/-- Association-list assignment, modelling a Go map write
(replace the binding of the key, appending when absent). -/
def setAssoc {κ α : Type} [DecidableEq κ] : List (κ × α) → κ → α → List (κ × α)
  | [], k, v => [(k, v)]
  | e :: rest, k, v => if e.1 = k then (k, v) :: rest else e :: setAssoc rest k v

/-- `storage.InMemoryStorage`: the five maps the resolution logic uses. -/
structure Store where
  tenants : List (Ident × Tenant)
  subscriptions : List (Ident × Subscription)
  growthPacks : List (Ident × List GrowthPackAssignment)
  cameras : List (Ident × CameraLicense)
  entitlements : List ((Ident × String × String) × FeatureEntitlement)
  deriving DecidableEq

/-- `storage.cameraKey`: `tenantID + ":" + cameraID`. -/
def cameraKey (cameraId tenantId : Ident) : Ident := tenantId ++ ':' :: cameraId

/-- `InMemoryStorage.GetTenant`. -/
def Store.getTenant (s : Store) (tenantId : Ident) : Option Tenant :=
  lookupAssoc s.tenants tenantId

/-- `InMemoryStorage.CreateTenant`. -/
def Store.createTenant (s : Store) (t : Tenant) : Store :=
  { s with tenants := setAssoc s.tenants t.id t }

/-- `InMemoryStorage.GetSubscription`. -/
def Store.getSubscription (s : Store) (tenantId : Ident) : Option Subscription :=
  lookupAssoc s.subscriptions tenantId

/-- `InMemoryStorage.CreateSubscription` (keyed by tenant id). -/
def Store.createSubscription (s : Store) (sub : Subscription) : Store :=
  { s with subscriptions := setAssoc s.subscriptions sub.tenantId sub }

/-- `InMemoryStorage.UpdateSubscription` (same map assignment as create). -/
def Store.updateSubscription (s : Store) (sub : Subscription) : Store :=
  { s with subscriptions := setAssoc s.subscriptions sub.tenantId sub }

/-- `InMemoryStorage.GetEnabledGrowthPacks`: assignments of the tenant with
the enabled flag set. -/
def Store.getEnabledGrowthPacks (s : Store) (tenantId : Ident) :
    List GrowthPackAssignment :=
  ((lookupAssoc s.growthPacks tenantId).getD []).filter (·.isEnabled)

/-- Loop body of `InMemoryStorage.DisableGrowthPack`: flip the first
assignment with the given pack name to disabled, stamping `disabledAt`. -/
def disableInList (packName : String) (now : Nat) :
    List GrowthPackAssignment → List GrowthPackAssignment
  | [] => []
  | p :: rest =>
    if p.packName = packName then
      { p with isEnabled := false, disabledAt := some now } :: rest
    else p :: disableInList packName now rest

/-- `InMemoryStorage.DisableGrowthPack`. -/
def Store.disableGrowthPack (s : Store) (tenantId : Ident) (packName : String)
    (now : Nat) : Store :=
  match lookupAssoc s.growthPacks tenantId with
  | none => s
  | some packs =>
    { s with growthPacks := setAssoc s.growthPacks tenantId (disableInList packName now packs) }

/-- `InMemoryStorage.GetCameraLicense` (exact key lookup). -/
def Store.getCameraLicense (s : Store) (cameraId tenantId : Ident) :
    Option CameraLicense :=
  lookupAssoc s.cameras (cameraKey cameraId tenantId)

/-- `InMemoryStorage.SaveCameraLicense` (upsert by camera key). -/
def Store.saveCameraLicense (s : Store) (license : CameraLicense) : Store :=
  { s with cameras := setAssoc s.cameras (cameraKey license.cameraId license.tenantId) license }

/-- Key filter of `InMemoryStorage.GetCamerasByTenant`:
`len(key) > len(tenantID) && key[:len(tenantID)] == tenantID`. -/
def matchesTenantKey (tenantId key : Ident) : Bool :=
  decide (tenantId.length < key.length) && decide (key.take tenantId.length = tenantId)

/-- `InMemoryStorage.GetCamerasByTenant`. -/
def Store.getCamerasByTenant (s : Store) (tenantId : Ident) : List CameraLicense :=
  (s.cameras.filter (fun e => matchesTenantKey tenantId e.1)).map (·.2)

/-- `InMemoryStorage.CountCamerasByTenant`. -/
def Store.countCamerasByTenant (s : Store) (tenantId : Ident) : Nat :=
  (s.getCamerasByTenant tenantId).length

/-- `InMemoryStorage.GetEntitlement`. -/
def Store.getEntitlement (s : Store) (tenantId : Ident) (category feature : String) :
    Option FeatureEntitlement :=
  lookupAssoc s.entitlements (tenantId, category, feature)

/-! ## License validation (`Handler.ValidateLicense`) -/

/-- `models.LicenseValidationResponse`. -/
structure LicenseValidationResponse where
  isValid : Bool
  licenseMode : String
  enabledGrowthPacks : List String
  validUntil : Nat
  camerasAllowed : Nat
  deriving DecidableEq

/-- The tenant record auto-created on first contact. -/
def autoTenant (tenantId : Ident) : Tenant :=
  { id := tenantId, name := "Auto-created Tenant", email := none, status := "active" }

/-- Create the tenant when missing (shared by `ValidateLicense` and
`GetLicenseStatus`). -/
def ensureTenant (st : Store) (tenantId : Ident) : Store :=
  match st.getTenant tenantId with
  | none => st.createTenant (autoTenant tenantId)
  | some _ => st

/-- The expiry check of `ValidateLicense` (lines 166-183): the applicable
`valid_until` together with whether `time.Now().After(validUntil)` held
(that flag forces `is_valid = false` and mode `"expired"`). The first
branch requires plan `"trial"` AND a set trial end; otherwise a set
subscription end is used; otherwise `now + 1 year` with no check. -/
def applicableExpiry (sub : Subscription) (now : Nat) : Nat × Bool :=
  match (if sub.plan = "trial" then sub.trialEndDate else none) with
  | some te => (te, decide (te < now))
  | none =>
    match sub.subscriptionEndDate with
    | some se => (se, decide (se < now))
    | none => (addDate now 1 0 0, false)

/-- Trailing camera-license upsert of `ValidateLicense` (lines 194-211),
performed whenever a camera id was supplied. -/
def saveCameraSnapshot (st : Store) (now : Nat) (freshLicId : String)
    (tenantId cameraId : Ident) (deviceId : String)
    (resp : LicenseValidationResponse) : Store :=
  if cameraId = [] then st
  else st.saveCameraLicense
    { id := freshLicId, cameraId := cameraId, tenantId := tenantId,
      deviceId := some deviceId, licenseMode := resp.licenseMode,
      isValid := resp.isValid, validUntil := some resp.validUntil,
      enabledGrowthPacks := resp.enabledGrowthPacks, lastValidated := now }

/-- `Handler.ValidateLicense` over the in-memory store. `now` is the call
time, `freshSubId`/`freshLicId` stand for the generated UUIDs. -/
def validateLicense (st : Store) (now : Nat) (freshSubId freshLicId : String)
    (tenantId cameraId : Ident) (deviceId : String) :
    Store × LicenseValidationResponse :=
  let enabledPackNames := (st.getEnabledGrowthPacks tenantId).map (·.packName)
  match st.getSubscription tenantId with
  | none =>
    let st1 := ensureTenant st tenantId
    let trialEnd := addDate now 0 3 0
    let sub : Subscription :=
      { id := freshSubId, tenantId := tenantId, plan := "trial", status := "active",
        camerasLicensed := 2, trialStartDate := some now, trialEndDate := some trialEnd,
        subscriptionStartDate := none, subscriptionEndDate := none,
        billingCycle := "monthly" }
    let st2 := st1.createSubscription sub
    let resp : LicenseValidationResponse :=
      { isValid := true, licenseMode := "trial", enabledGrowthPacks := enabledPackNames,
        validUntil := trialEnd, camerasAllowed := 2 }
    (saveCameraSnapshot st2 now freshLicId tenantId cameraId deviceId resp, resp)
  | some sub =>
    let camLimitHit :=
      decide (sub.plan = "trial") &&
      (decide (sub.camerasLicensed ≤ st.countCamerasByTenant tenantId) &&
       !(decide (cameraId = [])) &&
       (st.getCameraLicense cameraId tenantId).isNone)
    let expiry := applicableExpiry sub now
    let resp : LicenseValidationResponse :=
      { isValid := decide (sub.status = "active") && !camLimitHit && !expiry.2,
        licenseMode := if expiry.2 then "expired" else sub.plan,
        enabledGrowthPacks := enabledPackNames,
        validUntil := expiry.1, camerasAllowed := sub.camerasLicensed }
    (saveCameraSnapshot st now freshLicId tenantId cameraId deviceId resp, resp)

/-! ## Pricing (`calculatePricing`, `getGrowthPackPrice`) -/

/-- `handlers.BasePerCameraRate` (14.99 AUD). -/
def BasePerCameraRate : ℚ := 1499 / 100

/-- `handlers.DefaultCurrency`. -/
def DefaultCurrency : String := "AUD"

/-- `handlers.PricingBreakdown` (the Go `map[string]float64` of per-pack
costs is an association list built by assignment). -/
structure PricingBreakdown where
  baseCost : ℚ
  cameraCount : Nat
  perCameraRate : ℚ
  growthPacks : List (String × ℚ)
  growthPackCost : ℚ
  totalMonthly : ℚ
  currency : String
  deriving DecidableEq

/-- `handlers.getGrowthPackPrice`: catalog lookup by pack name, 0 when
absent. -/
def getGrowthPackPrice (packName : String) : ℚ :=
  match AvailableGrowthPacks.find? (fun p => p.packName == packName) with
  | some p => p.priceMonthly
  | none => 0

/-- Per-assignment cost of the `calculatePricing` loop: the custom price
when set and strictly positive, else the catalog price. -/
def packCost (pack : GrowthPackAssignment) : ℚ :=
  match pack.priceMonthly with
  | some p => if 0 < p then p else getGrowthPackPrice pack.packName
  | none => getGrowthPackPrice pack.packName

/-- `handlers.calculatePricing`. -/
def calculatePricing (cameraCount : Nat) (packs : List GrowthPackAssignment) :
    PricingBreakdown :=
  { baseCost := cameraCount * BasePerCameraRate
    cameraCount := cameraCount
    perCameraRate := BasePerCameraRate
    growthPacks := packs.foldl (fun acc pack => setAssoc acc pack.packName (packCost pack)) []
    growthPackCost := (packs.map packCost).sum
    totalMonthly := cameraCount * BasePerCameraRate + (packs.map packCost).sum
    currency := DefaultCurrency }

/-! ## License status view (`Handler.GetLicenseStatus`) -/

/-- `handlers.maskLicenseKey`: all but the last 4 characters replaced by
asterisks; keys of length at most 4 are returned unmasked. -/
def maskLicenseKey (key : Ident) : Ident :=
  if key.length ≤ 4 then key
  else List.replicate (key.length - 4) '*' ++ key.drop (key.length - 4)

/-- The response-building branch of `GetLicenseStatus` (lines 479-498):
days remaining, valid-until, trial start, and license mode. The trial
branch requires plan `"trial"` AND a set trial end; days remaining are
populated only there, and the mode becomes `"expired"` only when the
truncated day count is negative. -/
def statusView (sub : Subscription) (now : Nat) :
    Option Int × Nat × Option Nat × String :=
  match (if sub.plan = "trial" then sub.trialEndDate else none) with
  | some te =>
    let days := daysUntil te now
    (some days, te, sub.trialStartDate, if days < 0 then "expired" else sub.plan)
  | none =>
    match sub.subscriptionEndDate with
    | some se => (none, se, none, sub.plan)
    | none => (none, addDate now 1 0 0, none, sub.plan)

/-- The response map of `GetLicenseStatus`. -/
structure LicenseStatusResponse where
  licenseMode : String
  isValid : Bool
  activeCameras : Nat
  camerasAllowed : Nat
  daysRemaining : Option Int
  validUntil : Nat
  trialStartedAt : Option Nat
  enabledGrowthPacks : List String
  cameras : List CameraLicense
  pricing : PricingBreakdown
  licenseKey : Ident
  canRevoke : Bool
  trialMaxCameras : Nat
  deriving DecidableEq

/-- `Handler.GetLicenseStatus` over the in-memory store (on which
subscription creation cannot fail, so the degraded "unlicensed" branch is
unreachable). -/
def getLicenseStatus (st : Store) (now : Nat) (freshSubId : String)
    (tenantId : Ident) : Store × LicenseStatusResponse :=
  let cameras := st.getCamerasByTenant tenantId
  let packs := st.getEnabledGrowthPacks tenantId
  let provisioned : Store × Subscription :=
    match st.getSubscription tenantId with
    | some sub => (st, sub)
    | none =>
      let st1 := ensureTenant st tenantId
      let trialEnd := addDate now 0 0 TrialDurationDays
      let newSub : Subscription :=
        { id := freshSubId, tenantId := tenantId, plan := "trial", status := "active",
          camerasLicensed := TrialMaxCameras, trialStartDate := some now,
          trialEndDate := some trialEnd, subscriptionStartDate := none,
          subscriptionEndDate := none, billingCycle := "monthly" }
      (st1.createSubscription newSub, newSub)
  let sub := provisioned.2
  let view := statusView sub now
  (provisioned.1,
   { licenseMode := view.2.2.2
     isValid := decide (sub.status = "active") &&
       (match view.1 with
        | none => true
        | some d => decide (0 ≤ d))
     activeCameras := cameras.length
     camerasAllowed := sub.camerasLicensed
     daysRemaining := view.1
     validUntil := view.2.1
     trialStartedAt := view.2.2.1
     enabledGrowthPacks := packs.map (·.packName)
     cameras := cameras
     pricing := calculatePricing cameras.length packs
     licenseKey := maskLicenseKey tenantId
     canRevoke := decide (view.2.2.2 = "base")
     trialMaxCameras := TrialMaxCameras })

/-! ## Entitlements (`Handler.CheckEntitlement`) -/

/-- `models.EntitlementCheckResponse`. -/
structure EntitlementCheckResponse where
  isEnabled : Bool
  quotaRemaining : Int
  validUntil : Nat
  deriving DecidableEq

/-- Membership of a feature in the base feature set of a category. -/
def baseHas (category feature : String) : Bool :=
  match BaseFeatures category with
  | some fs => fs.contains feature
  | none => false

/-- Membership of a feature in one growth pack's feature map. -/
def packHas (packName category feature : String) : Bool :=
  match GetGrowthPackFeatures packName category with
  | some fs => fs.contains feature
  | none => false

/-- The growth-pack loop of `CheckEntitlement`: some enabled pack carries
the feature (every match produces the same response, so only existence
matters). -/
def findPackFeature (packs : List GrowthPackAssignment) (category feature : String) :
    Bool :=
  packs.any (fun p => packHas p.packName category feature)

/-- Quota remaining of a stored entitlement: `quota_limit - quota_used`
floored at 0 when a positive limit is set, else the -1 unlimited
sentinel. -/
def entitlementQuota (ent : FeatureEntitlement) : Int :=
  if 0 < ent.quotaLimit then
    if ent.quotaLimit - ent.quotaUsed < 0 then 0 else ent.quotaLimit - ent.quotaUsed
  else -1

/-- `Handler.CheckEntitlement`. -/
def checkEntitlement (st : Store) (now : Nat) (tenantId : Ident)
    (category feature : String) : EntitlementCheckResponse :=
  if baseHas category feature then
    { isEnabled := true, quotaRemaining := -1, validUntil := addDate now 1 0 0 }
  else if findPackFeature (st.getEnabledGrowthPacks tenantId) category feature then
    { isEnabled := true, quotaRemaining := -1, validUntil := addDate now 1 0 0 }
  else
    match st.getEntitlement tenantId category feature with
    | some ent =>
      if ent.isEnabled then
        { isEnabled := true, quotaRemaining := entitlementQuota ent,
          validUntil := ent.validUntil.getD (addDate now 1 0 0) }
      else { isEnabled := false, quotaRemaining := 0, validUntil := now }
    | none => { isEnabled := false, quotaRemaining := 0, validUntil := now }

/-! ## Revocation (`Handler.RevokeLicense`) -/

/-- `handlers.getActionMessage`. -/
def getActionMessage (camerasToStop : Nat) : String :=
  if camerasToStop = 0 then ""
  else if camerasToStop = 1 then "Please stop 1 camera to comply with trial limits."
  else "Please stop " ++ toString camerasToStop ++ " cameras to comply with trial limits."

/-- The response map of `RevokeLicense`. -/
structure RevokeResponse where
  success : Bool
  message : String
  plan : String
  status : String
  daysRemaining : Option Int
  trialExpired : Bool
  camerasAllowed : Nat
  currentCameras : Nat
  camerasOverLimit : Nat
  actionRequired : Bool
  actionMessage : String
  deriving DecidableEq

/-- Trial dates after revocation (lines 796-803): kept as stored when a
trial start exists, otherwise a fresh `now .. now + 90d` window. -/
def revokedTrialDates (sub : Subscription) (now : Nat) : Option Nat × Option Nat :=
  match sub.trialStartDate with
  | none => (some now, some (addDate now 0 0 TrialDurationDays))
  | some s => (some s, sub.trialEndDate)

/-- Subscription status after revocation: `"active"`, overridden to
`"expired"` when the resulting trial end is set and already past. -/
def revokedStatus (sub : Subscription) (now : Nat) : String :=
  match (revokedTrialDates sub now).2 with
  | some te => if te < now then "expired" else "active"
  | none => "active"

/-- The subscription written back by `RevokeLicense`. -/
def revokedSub (sub : Subscription) (now : Nat) : Subscription :=
  { sub with
    plan := "trial"
    status := revokedStatus sub now
    camerasLicensed := TrialMaxCameras
    trialStartDate := (revokedTrialDates sub now).1
    trialEndDate := (revokedTrialDates sub now).2
    subscriptionStartDate := none
    subscriptionEndDate := none }

/-- Days remaining reported by `RevokeLicense` (recomputed from the
resulting trial end, floored at 0). -/
def revokedDays (sub : Subscription) (now : Nat) : Option Int :=
  match (revokedTrialDates sub now).2 with
  | some te => some (if daysUntil te now < 0 then 0 else daysUntil te now)
  | none => none

/-- `Handler.RevokeLicense`: the resulting store together with either a
client error (HTTP status, message) or the success response. Error paths
return before any write, so they carry the store unchanged. -/
def revokeLicense (st : Store) (now : Nat) (tenantId : Ident) :
    Store × Except (Nat × String) RevokeResponse :=
  match st.getSubscription tenantId with
  | none => (st, .error (404, "Subscription not found"))
  | some sub =>
    if sub.plan = "trial" then (st, .error (400, "Cannot revoke a trial license"))
    else
      let currentCameraCount := (st.getCamerasByTenant tenantId).length
      let camerasToStop :=
        if TrialMaxCameras < currentCameraCount then currentCameraCount - TrialMaxCameras
        else 0
      let st2 := st.updateSubscription (revokedSub sub now)
      let st3 := (st2.getEnabledGrowthPacks tenantId).foldl
        (fun s p => s.disableGrowthPack tenantId p.packName now) st2
      (st3, .ok
        { success := true, message := "License revoked. Reverted to trial mode.",
          plan := "trial", status := revokedStatus sub now,
          daysRemaining := revokedDays sub now,
          trialExpired := decide (revokedStatus sub now = "expired"),
          camerasAllowed := TrialMaxCameras, currentCameras := currentCameraCount,
          camerasOverLimit := camerasToStop, actionRequired := decide (0 < camerasToStop),
          actionMessage := getActionMessage camerasToStop })

/-! ## Concrete instances used by counterexamples and witnesses -/

/-- The empty store. -/
def emptyStore : Store := { tenants := [], subscriptions := [], growthPacks := [], cameras := [], entitlements := [] }

/-- Seconds of 2024-03-01T00:00Z in the model's epoch. -/
def nowMar2024 : Nat := 86400 * daysFromCivil 2024 3 1

/-- A paid subscription whose subscription end lies in the past at time 1000. -/
def subPastEnd : Subscription :=
  { id := "sub-1", tenantId := ['t'], plan := "base", status := "active",
    camerasLicensed := 10, trialStartDate := none, trialEndDate := none,
    subscriptionStartDate := some 0, subscriptionEndDate := some 100,
    billingCycle := "monthly" }

/-- Store holding only `subPastEnd`. -/
def storePastEnd : Store :=
  { emptyStore with subscriptions := [(['t'], subPastEnd)] }

/-- A trial subscription whose trial end (100) is far in the past. -/
def subTrialOld : Subscription :=
  { id := "sub-2", tenantId := ['t'], plan := "trial", status := "active",
    camerasLicensed := 2, trialStartDate := some 0, trialEndDate := some 100,
    subscriptionStartDate := none, subscriptionEndDate := none,
    billingCycle := "monthly" }

/-- Store holding only `subTrialOld`. -/
def storeTrialOld : Store :=
  { emptyStore with subscriptions := [(['t'], subTrialOld)] }

/-- A camera-license snapshot for a tenant/camera pair. -/
def mkCamera (tenantId cameraId : Ident) : CameraLicense :=
  { id := "cam", cameraId := cameraId, tenantId := tenantId, deviceId := none,
    licenseMode := "trial", isValid := true, validUntil := some 5000,
    enabledGrowthPacks := [], lastValidated := 0 }

/-- An active trial subscription (cameras licensed 2, trial end 5000). -/
def subTrialLive : Subscription :=
  { id := "sub-3", tenantId := ['t'], plan := "trial", status := "active",
    camerasLicensed := 2, trialStartDate := some 0, trialEndDate := some 5000,
    subscriptionStartDate := none, subscriptionEndDate := none,
    billingCycle := "monthly" }

/-- Trial tenant `t` with two registered cameras `c1`, `c2`. -/
def storeTrialTwoCams : Store :=
  { emptyStore with
    subscriptions := [(['t'], subTrialLive)]
    cameras := [(cameraKey ['c', '1'] ['t'], mkCamera ['t'] ['c', '1']),
                (cameraKey ['c', '2'] ['t'], mkCamera ['t'] ['c', '2'])] }

/-- A paid subscription with no trial start but a stored trial end. -/
def subNoTrialStart : Subscription :=
  { id := "sub-4", tenantId := ['t'], plan := "base", status := "active",
    camerasLicensed := 10, trialStartDate := none, trialEndDate := some 500,
    subscriptionStartDate := some 0, subscriptionEndDate := some 900000,
    billingCycle := "monthly" }

/-- Store holding only `subNoTrialStart`. -/
def storeNoTrialStart : Store :=
  { emptyStore with subscriptions := [(['t'], subNoTrialStart)] }

/-- A paid subscription with both trial dates preserved from an old trial. -/
def subBaseWithTrialDates : Subscription :=
  { id := "sub-5", tenantId := ['t'], plan := "base", status := "active",
    camerasLicensed := 10, trialStartDate := some 10, trialEndDate := some 7000,
    subscriptionStartDate := some 20, subscriptionEndDate := some 900000,
    billingCycle := "monthly" }

/-- Base tenant `t` with five registered cameras and preserved trial dates. -/
def storeBaseFiveCams : Store :=
  { emptyStore with
    subscriptions := [(['t'], subBaseWithTrialDates)]
    cameras := [(cameraKey ['k', '1'] ['t'], mkCamera ['t'] ['k', '1']),
                (cameraKey ['k', '2'] ['t'], mkCamera ['t'] ['k', '2']),
                (cameraKey ['k', '3'] ['t'], mkCamera ['t'] ['k', '3']),
                (cameraKey ['k', '4'] ['t'], mkCamera ['t'] ['k', '4']),
                (cameraKey ['k', '5'] ['t'], mkCamera ['t'] ['k', '5'])] }

/-- Trial tenant `a` with one registered camera; tenant `ab` has none. -/
def storeOneCamA : Store :=
  { emptyStore with
    subscriptions := [(['a'], { subTrialLive with tenantId := ['a'] })]
    cameras := [(cameraKey ['c', '1'] ['a'], mkCamera ['a'] ['c', '1'])] }

/-- An enabled Intelligence growth-pack assignment for tenant `t`. -/
def packIntel : GrowthPackAssignment :=
  { id := "gp-1", tenantId := ['t'], packName := "Intelligence", enabledAt := 0,
    disabledAt := none, isEnabled := true, priceMonthly := some 599 }

/-- A stored, enabled entitlement with an expired validity. -/
def entExpired : FeatureEntitlement :=
  { id := "ent-1", tenantId := ['t'], featureCategory := "llm",
    featureName := "special_feature", isEnabled := true, quotaLimit := 10,
    quotaUsed := 3, validUntil := some 100 }

/-- Store with `entExpired` for tenant `t` and no growth packs. -/
def storeEntExpired : Store :=
  { emptyStore with entitlements := [((['t'], "llm", "special_feature"), entExpired)] }

/-- An Advanced Analytics assignment whose custom price is 0. -/
def packZeroPrice : GrowthPackAssignment :=
  { id := "gp-2", tenantId := ['t'], packName := "Advanced Analytics", enabledAt := 0,
    disabledAt := none, isEnabled := true, priceMonthly := some 0 }

/-! ## Calendar correctness -/

theorem checkYears_sound (n : Nat) (h : checkYears n = true) :
    ∀ y, y < n → yearOk y = true := by
  induction n with
  | zero => intro y hy; omega
  | succ n ih =>
    intro y hy
    rw [checkYears, Bool.and_eq_true] at h
    rcases Nat.lt_or_ge y n with h1 | h1
    · exact ih h.2 y h1
    · have : y = n := by omega
      subst this; exact h.1

set_option maxRecDepth 4000 in
theorem allYears (y : Nat) (h : y ≤ 399) : yearOk y = true :=
  checkYears_sound 400 (by decide) y (by omega)

theorem yearOk_start (y : Nat) (h : y ≤ 399) : yoeOf (fstart y) = y := by
  have h1 := allYears y h
  rw [yearOk, Bool.and_eq_true] at h1
  exact eq_of_beq h1.1

theorem yearOk_end (y : Nat) (h : y ≤ 398) : yoeOf (fstart (y + 1) - 1) = y := by
  have h1 := allYears y (by omega)
  rw [yearOk, Bool.and_eq_true, Bool.or_eq_true] at h1
  rcases h1.2 with h2 | h2
  · exact absurd (eq_of_beq h2) (by omega)
  · exact eq_of_beq h2

theorem nadj_mono : ∀ {a b : Nat}, a ≤ b → nadj a ≤ nadj b := by
  intro a b h
  induction b with
  | zero =>
    have : a = 0 := by omega
    subst this; exact Nat.le_refl _
  | succ n ih =>
    rcases Nat.lt_or_ge a (n + 1) with h1 | h1
    · have h2 := ih (by omega)
      have h3 : nadj n ≤ nadj (n + 1) := by unfold nadj; omega
      omega
    · have : a = n + 1 := by omega
      subst this; exact Nat.le_refl _

theorem yoeOf_mono {a b : Nat} (h : a ≤ b) : yoeOf a ≤ yoeOf b :=
  Nat.div_le_div_right (nadj_mono h)

theorem fstart_step (y : Nat) :
    365 ≤ fstart (y + 1) - fstart y ∧ fstart (y + 1) - fstart y ≤ 366 := by
  unfold fstart; omega

theorem yoe_correct (d : Nat) (h : d ≤ 146096) :
    fstart (yoeOf d) ≤ d ∧ d - fstart (yoeOf d) ≤ 365 ∧ yoeOf d ≤ 399 := by
  have h399 : yoeOf d ≤ 399 := by
    have h1 : yoeOf d ≤ yoeOf 146096 := yoeOf_mono h
    have h2 : yoeOf 146096 = 399 := by decide
    omega
  refine ⟨?_, ?_, h399⟩
  · by_contra hlt
    push_neg at hlt
    have hy1 : 1 ≤ yoeOf d := by
      by_contra h0
      have : yoeOf d = 0 := by omega
      rw [this] at hlt
      unfold fstart at hlt; omega
    have he : yoeOf (fstart (yoeOf d) - 1) = yoeOf d - 1 := by
      have h2 := yearOk_end (yoeOf d - 1) (by omega)
      have heq : yoeOf d - 1 + 1 = yoeOf d := by omega
      rw [heq] at h2; exact h2
    have hm : yoeOf d ≤ yoeOf (fstart (yoeOf d) - 1) := yoeOf_mono (by omega)
    omega
  · rcases Nat.lt_or_ge (yoeOf d) 399 with hy | hy
    · by_contra hgt
      push_neg at hgt
      have hstep : fstart (yoeOf d + 1) ≤ fstart (yoeOf d) + 366 := by
        have := fstart_step (yoeOf d); omega
      have hs : yoeOf (fstart (yoeOf d + 1)) = yoeOf d + 1 := yearOk_start _ (by omega)
      have hm : yoeOf (fstart (yoeOf d + 1)) ≤ yoeOf d :=
        yoeOf_mono (show fstart (yoeOf d + 1) ≤ d by omega)
      omega
    · have h3 : yoeOf d = 399 := by omega
      rw [h3]
      have h4 : fstart 399 = 145731 := by decide
      omega

theorem mp_correct (doy : Nat) (h : doy ≤ 365) :
    (5 * doy + 2) / 153 ≤ 11 ∧
    (153 * ((5 * doy + 2) / 153) + 2) / 5 ≤ doy ∧
    doy - (153 * ((5 * doy + 2) / 153) + 2) / 5 ≤ 30 := by
  omega

theorem dfc_cfd (z : Nat) : daysFromCivil (cfdYear z) (cfdMonth z) (cfdDay z) = z := by
  have hdoe : z % 146097 ≤ 146096 := by omega
  obtain ⟨hf, hdoy, hy399⟩ := yoe_correct (z % 146097) hdoe
  have hmp := mp_correct (z % 146097 - fstart (yoeOf (z % 146097))) hdoy
  unfold daysFromCivil cfdYear cfdMonth cfdDay cfdMp cfdDoy cfdYoe
  by_cases hc : (5 * (z % 146097 - fstart (yoeOf (z % 146097))) + 2) / 153 < 10
  · simp only [if_pos hc]
    rw [if_neg (by omega), if_pos (by omega)]
    have e1 : (0 + yoeOf (z % 146097) + 400 * (z / 146097)) / 400 = z / 146097 := by omega
    have e2 : (0 + yoeOf (z % 146097) + 400 * (z / 146097)) % 400 = yoeOf (z % 146097) := by
      omega
    rw [e1, e2]
    omega
  · simp only [if_neg hc]
    rw [if_pos (by omega), if_neg (by omega)]
    have e1 : (1 + yoeOf (z % 146097) + 400 * (z / 146097) - 1) / 400 = z / 146097 := by omega
    have e2 : (1 + yoeOf (z % 146097) + 400 * (z / 146097) - 1) % 400 = yoeOf (z % 146097) := by
      omega
    rw [e1, e2]
    omega

theorem cfdMonth_bounds (z : Nat) : 1 ≤ cfdMonth z ∧ cfdMonth z ≤ 12 := by
  have hdoe : z % 146097 ≤ 146096 := by omega
  obtain ⟨hf, hdoy, hy399⟩ := yoe_correct (z % 146097) hdoe
  have hmp := mp_correct (z % 146097 - fstart (yoeOf (z % 146097))) hdoy
  unfold cfdMonth cfdMp cfdDoy cfdYoe
  by_cases hc : (5 * (z % 146097 - fstart (yoeOf (z % 146097))) + 2) / 153 < 10
  · rw [if_pos hc]; omega
  · rw [if_neg hc]; omega

theorem cfdDay_pos (z : Nat) : 1 ≤ cfdDay z := by
  unfold cfdDay; omega

theorem cfdYear_pos (z : Nat) (h : cfdMonth z ≤ 2) : 1 ≤ cfdYear z := by
  unfold cfdMonth at h
  unfold cfdYear
  by_cases hc : cfdMp z < 10
  · rw [if_pos hc] at h; omega
  · rw [if_neg hc]; omega

theorem dfc_day_shift (y m d k : Nat) (hd : 1 ≤ d) :
    daysFromCivil y m (d + k) = daysFromCivil y m d + k := by
  unfold daysFromCivil; omega

theorem dfc_year_succ (y m : Nat) (hm1 : 1 ≤ m) (hm12 : m ≤ 12) (hy : m ≤ 2 → 1 ≤ y) :
    daysFromCivil y m 1 + 364 ≤ daysFromCivil (y + 1) m 1 := by
  unfold daysFromCivil fstart
  by_cases hc : m ≤ 2
  · rw [if_pos hc, if_pos hc, if_neg (by omega)]
    have h1 : 1 ≤ y := hy hc
    omega
  · rw [if_neg hc, if_neg hc, if_pos (by omega)]
    omega

theorem addDate_days (t k : Nat) : addDate t 0 0 k = t + 86400 * k := by
  obtain ⟨hm1, hm12⟩ := cfdMonth_bounds (t / 86400)
  have hd := cfdDay_pos (t / 86400)
  have hrt := dfc_cfd (t / 86400)
  unfold addDate
  have e1 : (cfdMonth (t / 86400) - 1 + 0) / 12 = 0 := by omega
  have e2 : (cfdMonth (t / 86400) - 1 + 0) % 12 + 1 = cfdMonth (t / 86400) := by omega
  rw [e1, e2]
  simp only [Nat.add_zero]
  have e3 : cfdDay (t / 86400) + k - 1 = (cfdDay (t / 86400) - 1) + k := by omega
  rw [e3]
  have e4 := dfc_day_shift (cfdYear (t / 86400)) (cfdMonth (t / 86400))
    1 (cfdDay (t / 86400) - 1) (by omega)
  have e5 : 1 + (cfdDay (t / 86400) - 1) = cfdDay (t / 86400) := by omega
  rw [e5] at e4
  omega

theorem addDate_year_gt (t : Nat) : t < addDate t 1 0 0 := by
  obtain ⟨hm1, hm12⟩ := cfdMonth_bounds (t / 86400)
  have hd := cfdDay_pos (t / 86400)
  have hrt := dfc_cfd (t / 86400)
  have hyp := cfdYear_pos (t / 86400)
  unfold addDate
  have e1 : (cfdMonth (t / 86400) - 1 + 0) / 12 = 0 := by omega
  have e2 : (cfdMonth (t / 86400) - 1 + 0) % 12 + 1 = cfdMonth (t / 86400) := by omega
  rw [e1, e2]
  simp only [Nat.add_zero]
  have e4 := dfc_day_shift (cfdYear (t / 86400) + 1) (cfdMonth (t / 86400))
    1 (cfdDay (t / 86400) - 1) (by omega)
  have e5 : 1 + (cfdDay (t / 86400) - 1) = cfdDay (t / 86400) := by omega
  rw [e5] at e4
  have e6 := dfc_year_succ (cfdYear (t / 86400)) (cfdMonth (t / 86400)) hm1 hm12 hyp
  have e7 := dfc_day_shift (cfdYear (t / 86400)) (cfdMonth (t / 86400))
    1 (cfdDay (t / 86400) - 1) (by omega)
  rw [e5] at e7
  omega

/-! ## Arithmetic helpers for the day counter -/

theorem daysUntil_eq (te now : Nat) :
    daysUntil te now =
      if now ≤ te then ((te : Int) - now) / 86400 else -(((now : Int) - te) / 86400) := by
  unfold daysUntil
  by_cases h : now ≤ te
  · rw [if_pos h, Int.tdiv_eq_ediv (by omega) (by omega)]
  · rw [if_neg h]
    have h1 : (te : Int) - now = -((now : Int) - te) := by ring
    rw [h1, Int.neg_tdiv, Int.tdiv_eq_ediv (by omega) (by omega)]

theorem daysUntil_neg_of_day_past (te now : Nat) (h : te + 86400 ≤ now) :
    daysUntil te now < 0 := by
  rw [daysUntil_eq]
  split
  · omega
  · have h2 : 1 ≤ ((now : Int) - te) / 86400 := by omega
    omega

theorem daysUntil_add_days (now k : Nat) : daysUntil (now + 86400 * k) now = k := by
  rw [daysUntil_eq, if_pos (by omega)]
  omega

/-! ## Association-list and store lemmas -/

theorem lookupAssoc_setAssoc_self {κ α : Type} [DecidableEq κ]
    (l : List (κ × α)) (k : κ) (v : α) : lookupAssoc (setAssoc l k v) k = some v := by
  induction l with
  | nil => simp [setAssoc, lookupAssoc]
  | cons e rest ih =>
    rw [setAssoc]
    split
    · simp [lookupAssoc]
    · rw [lookupAssoc]
      split
      · simp_all
      · exact ih

theorem mem_setAssoc_self {κ α : Type} [DecidableEq κ]
    (l : List (κ × α)) (k : κ) (v : α) : (k, v) ∈ setAssoc l k v := by
  induction l with
  | nil => simp [setAssoc]
  | cons e rest ih =>
    rw [setAssoc]
    split
    · exact List.mem_cons_self _ _
    · exact List.mem_cons_of_mem _ ih

theorem getSubscription_saveCameraSnapshot (st : Store) (now : Nat) (lid : String)
    (tid cid : Ident) (did : String) (resp : LicenseValidationResponse) (t : Ident) :
    (saveCameraSnapshot st now lid tid cid did resp).getSubscription t =
      st.getSubscription t := by
  unfold saveCameraSnapshot
  split <;> rfl

theorem getTenant_saveCameraSnapshot (st : Store) (now : Nat) (lid : String)
    (tid cid : Ident) (did : String) (resp : LicenseValidationResponse) (t : Ident) :
    (saveCameraSnapshot st now lid tid cid did resp).getTenant t = st.getTenant t := by
  unfold saveCameraSnapshot
  split <;> rfl

theorem getSubscription_ensureTenant (st : Store) (tid t : Ident) :
    (ensureTenant st tid).getSubscription t = st.getSubscription t := by
  unfold ensureTenant
  cases st.getTenant tid <;> rfl

theorem getTenant_createSubscription (st : Store) (sub : Subscription) (t : Ident) :
    (st.createSubscription sub).getTenant t = st.getTenant t := rfl

theorem getSubscription_createSubscription_self (st : Store) (sub : Subscription) :
    (st.createSubscription sub).getSubscription sub.tenantId = some sub :=
  lookupAssoc_setAssoc_self _ _ _

theorem getTenant_ensureTenant_missing (st : Store) (tid : Ident)
    (h : st.getTenant tid = none) :
    (ensureTenant st tid).getTenant tid = some (autoTenant tid) := by
  unfold ensureTenant
  rw [h]
  exact lookupAssoc_setAssoc_self _ _ _

theorem getSubscription_updateSubscription_self (st : Store) (sub : Subscription) :
    (st.updateSubscription sub).getSubscription sub.tenantId = some sub :=
  lookupAssoc_setAssoc_self _ _ _

theorem getSubscription_disableGrowthPack (st : Store) (tid : Ident) (pn : String)
    (now : Nat) (t : Ident) :
    (st.disableGrowthPack tid pn now).getSubscription t = st.getSubscription t := by
  unfold Store.disableGrowthPack
  cases lookupAssoc st.growthPacks tid <;> rfl

theorem getSubscription_foldDisable (tid : Ident) (now : Nat)
    (packs : List GrowthPackAssignment) :
    ∀ (st : Store) (t : Ident),
      ((packs.foldl (fun s p => s.disableGrowthPack tid p.packName now) st).getSubscription t) =
        st.getSubscription t := by
  induction packs with
  | nil => intro st t; rfl
  | cons p rest ih =>
    intro st t
    rw [List.foldl_cons, ih, getSubscription_disableGrowthPack]

theorem applicableExpiry_first (sub : Subscription) (now te : Nat)
    (h0 : (if sub.plan = "trial" then sub.trialEndDate else none) = some te) :
    applicableExpiry sub now = (te, decide (te < now)) := by
  unfold applicableExpiry
  rw [h0]

theorem applicableExpiry_paid (sub : Subscription) (now se : Nat)
    (h0 : (if sub.plan = "trial" then sub.trialEndDate else none) = none)
    (hse : sub.subscriptionEndDate = some se) :
    applicableExpiry sub now = (se, decide (se < now)) := by
  unfold applicableExpiry
  rw [h0, hse]

theorem applicableExpiry_default (sub : Subscription) (now : Nat)
    (h0 : (if sub.plan = "trial" then sub.trialEndDate else none) = none)
    (hse : sub.subscriptionEndDate = none) :
    applicableExpiry sub now = (addDate now 1 0 0, false) := by
  unfold applicableExpiry
  rw [h0, hse]

theorem statusView_first (sub : Subscription) (now te : Nat)
    (h0 : (if sub.plan = "trial" then sub.trialEndDate else none) = some te) :
    statusView sub now =
      (some (daysUntil te now), te, sub.trialStartDate,
       if daysUntil te now < 0 then "expired" else sub.plan) := by
  unfold statusView
  rw [h0]

theorem applicableExpiry_expired (sub : Subscription) (now : Nat)
    (h : (applicableExpiry sub now).1 < now) : (applicableExpiry sub now).2 = true := by
  rcases h0 : (if sub.plan = "trial" then sub.trialEndDate else none) with _ | te
  · rcases hse : sub.subscriptionEndDate with _ | se
    · rw [applicableExpiry_default sub now h0 hse] at h
      exact absurd h (by have := addDate_year_gt now; omega)
    · rw [applicableExpiry_paid sub now se h0 hse] at h ⊢
      simpa using h
  · rw [applicableExpiry_first sub now te h0] at h ⊢
    simpa using h

/-- Claim C1 (amended). Expiry overrides status in `ValidateLicense`: for
every stored subscription, whenever the applicable valid-until (trial end
for a trial plan with one set, else a set subscription end, else
`now + 1 year`) is in the past at call time, the response has
`is_valid = false` and `license_mode = "expired"` regardless of the stored
status. `GetLicenseStatus` applies the override only to trial plans whose
trial end is at least a full day in the past (its truncated day count is
then negative); within 24 hours of expiry, and for paid plans whose
subscription end has passed, it does not report `"expired"`. -/
theorem C1_expiry_override (st : Store) (now : Nat) (sid lid did : String)
    (tid cid : Ident) (sub : Subscription)
    (hsub : st.getSubscription tid = some sub) :
    ((applicableExpiry sub now).1 < now →
      (validateLicense st now sid lid tid cid did).2.isValid = false ∧
      (validateLicense st now sid lid tid cid did).2.licenseMode = "expired") ∧
    (∀ te, sub.plan = "trial" → sub.trialEndDate = some te → te + 86400 ≤ now →
      (getLicenseStatus st now sid tid).2.isValid = false ∧
      (getLicenseStatus st now sid tid).2.licenseMode = "expired") := by
  constructor
  · intro hpast
    have hexp := applicableExpiry_expired sub now hpast
    simp only [validateLicense, hsub]
    simp [hexp]
  · intro te hplan hte hpast
    have hdays := daysUntil_neg_of_day_past te now hpast
    have hnn : ¬(0 ≤ daysUntil te now) := by omega
    have h0 : (if sub.plan = "trial" then sub.trialEndDate else none) = some te := by
      rw [if_pos hplan, hte]
    simp only [getLicenseStatus, hsub]
    rw [statusView_first sub now te h0]
    simp [hdays, hnn]

/-- Claim C1, counterexample to the claim as stated: a paid subscription
with `status = "active"` whose subscription end (100) is already past at
call time 1000 still yields `is_valid = true` and `license_mode = "base"`
from `GetLicenseStatus`. -/
theorem C1_counterexample :
    subPastEnd.plan = "base" ∧ subPastEnd.status = "active" ∧
    subPastEnd.subscriptionEndDate = some 100 ∧ 100 < 1000 ∧
    storePastEnd.getSubscription ['t'] = some subPastEnd ∧
    (getLicenseStatus storePastEnd 1000 "fresh" ['t']).2.isValid = true ∧
    (getLicenseStatus storePastEnd 1000 "fresh" ['t']).2.licenseMode = "base" := by
  decide

/-- Claim C1, witness: the amended theorem applied to a trial subscription
whose trial end 100 lies more than a day before call time 90000. -/
theorem C1_witness :
    ((validateLicense storeTrialOld 90000 "s" "l" ['t'] [] "d").2.isValid = false ∧
     (validateLicense storeTrialOld 90000 "s" "l" ['t'] [] "d").2.licenseMode = "expired") ∧
    ((getLicenseStatus storeTrialOld 90000 "s" ['t']).2.isValid = false ∧
     (getLicenseStatus storeTrialOld 90000 "s" ['t']).2.licenseMode = "expired") :=
  ⟨(C1_expiry_override storeTrialOld 90000 "s" "l" "d" ['t'] [] subTrialOld (by decide)).1
      (by decide),
   (C1_expiry_override storeTrialOld 90000 "s" "l" "d" ['t'] [] subTrialOld (by decide)).2
      100 (by decide) (by decide) (by decide)⟩

/-- Claim C2 (amended). Trial auto-provisioning: with no stored
subscription, both license-resolution calls create the tenant when missing
(status `"active"`) and create a trial subscription with plan `"trial"`,
status `"active"`, `cameras_licensed = 2`, `trial_start = now`, and return
`is_valid = true`, `license_mode = "trial"`, `valid_until = trial_end`,
`cameras_allowed = 2`. `GetLicenseStatus` sets
`trial_end = now + 90 days`; `ValidateLicense` instead sets
`trial_end = now + 3 calendar months` (`AddDate(0, 3, 0)`). -/
theorem C2_trial_autoprovision (st : Store) (now : Nat) (sid lid did : String)
    (tid cid : Ident) (hsub : st.getSubscription tid = none) :
    ((validateLicense st now sid lid tid cid did).2.isValid = true ∧
     (validateLicense st now sid lid tid cid did).2.licenseMode = "trial" ∧
     (validateLicense st now sid lid tid cid did).2.validUntil = addDate now 0 3 0 ∧
     (validateLicense st now sid lid tid cid did).2.camerasAllowed = 2 ∧
     (validateLicense st now sid lid tid cid did).1.getSubscription tid = some
       { id := sid, tenantId := tid, plan := "trial", status := "active",
         camerasLicensed := 2, trialStartDate := some now,
         trialEndDate := some (addDate now 0 3 0), subscriptionStartDate := none,
         subscriptionEndDate := none, billingCycle := "monthly" } ∧
     (st.getTenant tid = none →
       (validateLicense st now sid lid tid cid did).1.getTenant tid =
         some (autoTenant tid))) ∧
    ((getLicenseStatus st now sid tid).2.isValid = true ∧
     (getLicenseStatus st now sid tid).2.licenseMode = "trial" ∧
     (getLicenseStatus st now sid tid).2.validUntil = now + 86400 * TrialDurationDays ∧
     (getLicenseStatus st now sid tid).2.camerasAllowed = TrialMaxCameras ∧
     (getLicenseStatus st now sid tid).1.getSubscription tid = some
       { id := sid, tenantId := tid, plan := "trial", status := "active",
         camerasLicensed := TrialMaxCameras, trialStartDate := some now,
         trialEndDate := some (now + 86400 * TrialDurationDays),
         subscriptionStartDate := none, subscriptionEndDate := none,
         billingCycle := "monthly" } ∧
     (st.getTenant tid = none →
       (getLicenseStatus st now sid tid).1.getTenant tid = some (autoTenant tid))) := by
  constructor
  · refine ⟨?_, ?_, ?_, ?_, ?_, ?_⟩
    · simp [validateLicense, hsub]
    · simp [validateLicense, hsub]
    · simp [validateLicense, hsub]
    · simp [validateLicense, hsub]
    · simp only [validateLicense, hsub]
      simp only [getSubscription_saveCameraSnapshot]
      exact getSubscription_createSubscription_self _ _
    · intro hten
      simp only [validateLicense, hsub]
      simp only [getTenant_saveCameraSnapshot, getTenant_createSubscription]
      exact getTenant_ensureTenant_missing st tid hten
  · have hadd : addDate now 0 0 TrialDurationDays = now + 86400 * TrialDurationDays :=
      addDate_days now TrialDurationDays
    have hdu : daysUntil (now + 86400 * TrialDurationDays) now = TrialDurationDays :=
      daysUntil_add_days now TrialDurationDays
    have h0 : ¬((TrialDurationDays : Int) < 0) := by decide
    have h1 : (0 : Int) ≤ TrialDurationDays := by decide
    refine ⟨?_, ?_, ?_, ?_, ?_, ?_⟩
    · simp [getLicenseStatus, hsub, statusView, hadd, hdu, h0, h1]
    · simp [getLicenseStatus, hsub, statusView, hadd, hdu, h0]
    · simp [getLicenseStatus, hsub, statusView, hadd, hdu, h0]
    · simp [getLicenseStatus, hsub]
    · simp only [getLicenseStatus, hsub]
      simp only [hadd]
      exact getSubscription_createSubscription_self _ _
    · intro hten
      simp only [getLicenseStatus, hsub]
      simp only [getTenant_createSubscription]
      exact getTenant_ensureTenant_missing st tid hten

/-- Claim C2, counterexample to the claim as stated: at 2024-03-01,
`ValidateLicense` provisions a trial whose `trial_end` is 92 days after
`now` (2024-06-01, i.e. `now` plus 3 calendar months), not 90 days. -/
theorem C2_counterexample :
    emptyStore.getSubscription ['t'] = none ∧
    (validateLicense emptyStore nowMar2024 "s" "l" ['t'] [] "d").2.validUntil =
      nowMar2024 + 86400 * 92 ∧
    nowMar2024 + 86400 * 92 ≠ nowMar2024 + 86400 * 90 := by
  decide

/-- Claim C2, witness: the amended theorem applied to the empty store at
2024-03-01 for tenant `t`. -/
theorem C2_witness :
    (validateLicense emptyStore nowMar2024 "s" "l" ['t'] [] "d").2.isValid = true ∧
    (getLicenseStatus emptyStore nowMar2024 "s" ['t']).2.validUntil =
      nowMar2024 + 86400 * TrialDurationDays ∧
    (getLicenseStatus emptyStore nowMar2024 "s" ['t']).1.getTenant ['t'] =
      some (autoTenant ['t']) :=
  ⟨(C2_trial_autoprovision emptyStore nowMar2024 "s" "l" "d" ['t'] [] (by decide)).1.1,
   (C2_trial_autoprovision emptyStore nowMar2024 "s" "l" "d" ['t'] [] (by decide)).2.2.2.1,
   (C2_trial_autoprovision emptyStore nowMar2024 "s" "l" "d" ['t'] []
      (by decide)).2.2.2.2.2.2 (by decide)⟩

/-- Claim C3 (confirmed). Trial camera-limit check: for every stored trial
subscription and non-empty camera id, when the tenant's counted cameras
reach `cameras_licensed` and the camera has no pre-existing license
record, `ValidateLicense` returns `is_valid = false`; when a record
already exists, the camera-limit check leaves validity exactly as derived
from the stored status and the expiry check (already-registered cameras
keep validating). -/
theorem C3_trial_camera_limit (st : Store) (now : Nat) (sid lid did : String)
    (tid cid : Ident) (sub : Subscription)
    (hsub : st.getSubscription tid = some sub)
    (hplan : sub.plan = "trial") (hcid : cid ≠ []) :
    (sub.camerasLicensed ≤ st.countCamerasByTenant tid →
      st.getCameraLicense cid tid = none →
      (validateLicense st now sid lid tid cid did).2.isValid = false) ∧
    (∀ lic, st.getCameraLicense cid tid = some lic →
      (validateLicense st now sid lid tid cid did).2.isValid =
        (decide (sub.status = "active") && !(applicableExpiry sub now).2)) := by
  constructor
  · intro hcount hnone
    simp [validateLicense, hsub, hplan, hcount, hnone, hcid]
  · intro lic hlic
    simp [validateLicense, hsub, hlic]

/-- Claim C3, witness: with two registered cameras on a two-camera trial,
a third camera `c3` is rejected while registered camera `c1` still
validates (its status- and expiry-derived validity, which is true here). -/
theorem C3_witness :
    (validateLicense storeTrialTwoCams 1000 "s" "l" ['t'] ['c', '3'] "d").2.isValid = false ∧
    (validateLicense storeTrialTwoCams 1000 "s" "l" ['t'] ['c', '1'] "d").2.isValid =
      (decide (subTrialLive.status = "active") &&
       !(applicableExpiry subTrialLive 1000).2) :=
  ⟨(C3_trial_camera_limit storeTrialTwoCams 1000 "s" "l" "d" ['t'] ['c', '3'] subTrialLive
      (by decide) (by decide) (by decide)).1 (by decide) (by decide),
   (C3_trial_camera_limit storeTrialTwoCams 1000 "s" "l" "d" ['t'] ['c', '1'] subTrialLive
      (by decide) (by decide) (by decide)).2 (mkCamera ['t'] ['c', '1']) (by decide)⟩

theorem revoke_ok_sub (st : Store) (now : Nat) (tid : Ident) (sub : Subscription)
    (hsub : st.getSubscription tid = some sub) (htid : sub.tenantId = tid)
    (hplan : sub.plan ≠ "trial") :
    (revokeLicense st now tid).1.getSubscription tid = some (revokedSub sub now) := by
  simp only [revokeLicense, hsub]
  rw [if_neg hplan]
  simp only [getSubscription_foldDisable]
  have h2 : (revokedSub sub now).tenantId = tid := htid
  rw [← h2]
  exact getSubscription_updateSubscription_self _ _

/-- Claim C4 (amended). Revocation preserves the trial clock whenever
`trial_start` is set: both dates stay unchanged, and a second revocation
(after setting the plan back to a non-trial plan) leaves the dates of the
first revocation intact. A fresh window `now .. now + 90d` is started
exactly when `trial_start` is nil — the stored `trial_end` is not
consulted and is overwritten in that case. -/
theorem C4_revocation_trial_clock (st : Store) (now now2 : Nat) (tid : Ident)
    (sub : Subscription) (hsub : st.getSubscription tid = some sub)
    (htid : sub.tenantId = tid) (hplan : sub.plan ≠ "trial") :
    (∀ ts, sub.trialStartDate = some ts →
      ((revokeLicense st now tid).1.getSubscription tid).map
        (fun s2 => (s2.trialStartDate, s2.trialEndDate)) =
        some (some ts, sub.trialEndDate)) ∧
    (sub.trialStartDate = none →
      ((revokeLicense st now tid).1.getSubscription tid).map
        (fun s2 => (s2.trialStartDate, s2.trialEndDate)) =
        some (some now, some (now + 86400 * TrialDurationDays))) ∧
    (∀ p sub1, p ≠ "trial" →
      (revokeLicense st now tid).1.getSubscription tid = some sub1 →
      ((revokeLicense (((revokeLicense st now tid).1).updateSubscription
          { sub1 with plan := p }) now2 tid).1.getSubscription tid).map
        (fun s2 => (s2.trialStartDate, s2.trialEndDate)) =
        some (sub1.trialStartDate, sub1.trialEndDate)) := by
  have hshape := revoke_ok_sub st now tid sub hsub htid hplan
  refine ⟨?_, ?_, ?_⟩
  · intro ts hts
    rw [hshape]
    simp [revokedSub, revokedTrialDates, hts]
  · intro hts
    rw [hshape]
    simp [revokedSub, revokedTrialDates, hts, addDate_days]
  · intro p sub1 hp hsub1
    rw [hshape] at hsub1
    have hs1 : revokedSub sub now = sub1 := Option.some.inj hsub1
    have htid2 : ({ sub1 with plan := p } : Subscription).tenantId = tid := by
      rw [← hs1]
      exact htid
    have hget : (((revokeLicense st now tid).1).updateSubscription
        { sub1 with plan := p }).getSubscription tid = some { sub1 with plan := p } := by
      rw [← htid2]
      exact getSubscription_updateSubscription_self _ _
    have hplan2 : ({ sub1 with plan := p } : Subscription).plan ≠ "trial" := hp
    have hshape2 := revoke_ok_sub _ now2 tid { sub1 with plan := p } hget htid2 hplan2
    rw [hshape2]
    have hts1 : ∃ x, sub1.trialStartDate = some x := by
      rw [← hs1]
      cases hcase : sub.trialStartDate <;>
        simp [revokedSub, revokedTrialDates, hcase]
    obtain ⟨x, hx⟩ := hts1
    simp [revokedSub, revokedTrialDates, hx]

/-- Claim C4, counterexample to the claim as stated: a base subscription
with `trial_start = nil` but `trial_end = 500` (not nil) still gets a
fresh window on revocation at time 1000 — the stored `trial_end` 500 is
overwritten with `1000 + 90d = 7777000`, refuting "only when both trial
dates are nil does it start a fresh window". -/
theorem C4_counterexample :
    subNoTrialStart.trialStartDate = none ∧
    subNoTrialStart.trialEndDate = some 500 ∧
    ((revokeLicense storeNoTrialStart 1000 ['t']).1.getSubscription ['t']).map
      (fun s2 => s2.trialEndDate) = some (some 7777000) ∧
    (some (500 : Nat) : Option Nat) ≠ some 7777000 := by
  decide

/-- Claim C4, witness: preservation on a base subscription with trial
dates `(10, 7000)`, and fresh-window start when `trial_start` is nil. -/
theorem C4_witness :
    ((revokeLicense storeBaseFiveCams 1000 ['t']).1.getSubscription ['t']).map
      (fun s2 => (s2.trialStartDate, s2.trialEndDate)) = some (some 10, some 7000) ∧
    ((revokeLicense storeNoTrialStart 1000 ['t']).1.getSubscription ['t']).map
      (fun s2 => (s2.trialStartDate, s2.trialEndDate)) =
      some (some 1000, some (1000 + 86400 * TrialDurationDays)) :=
  ⟨(C4_revocation_trial_clock storeBaseFiveCams 1000 1000 ['t'] subBaseWithTrialDates
      (by decide) (by decide) (by decide)).1 10 (by decide),
   (C4_revocation_trial_clock storeNoTrialStart 1000 1000 ['t'] subNoTrialStart
      (by decide) (by decide) (by decide)).2.1 (by decide)⟩

/-- Claim C5 (confirmed). Revoking a trial is rejected: when the stored
plan is `"trial"`, `RevokeLicense` fails with the 400 client error
`"Cannot revoke a trial license"` and the store is returned unchanged —
no subscription update and no growth-pack disabling happens. -/
theorem C5_revoke_trial_rejected (st : Store) (now : Nat) (tid : Ident)
    (sub : Subscription) (hsub : st.getSubscription tid = some sub)
    (hplan : sub.plan = "trial") :
    revokeLicense st now tid = (st, .error (400, "Cannot revoke a trial license")) := by
  simp only [revokeLicense, hsub]
  rw [if_pos hplan]

/-- Claim C5, witness: revoking the trial tenant of `storeTrialOld`. -/
theorem C5_witness :
    revokeLicense storeTrialOld 1000 ['t'] =
      (storeTrialOld, .error (400, "Cannot revoke a trial license")) :=
  C5_revoke_trial_rejected storeTrialOld 1000 ['t'] subTrialOld (by decide) (by decide)

theorem revokedDays_nonneg (sub : Subscription) (now : Nat) :
    ∀ d, revokedDays sub now = some d → 0 ≤ d := by
  unfold revokedDays
  rcases (revokedTrialDates sub now).2 with _ | te
  · intro d hd
    simp at hd
  · intro d hd
    simp only [Option.some.injEq] at hd
    rw [← hd]
    split <;> omega

theorem revoke_ok_resp (st : Store) (now : Nat) (tid : Ident) (sub : Subscription)
    (hsub : st.getSubscription tid = some sub) (hplan : sub.plan ≠ "trial") :
    (revokeLicense st now tid).2 = Except.ok
      { success := true, message := "License revoked. Reverted to trial mode.",
        plan := "trial", status := revokedStatus sub now,
        daysRemaining := revokedDays sub now,
        trialExpired := decide (revokedStatus sub now = "expired"),
        camerasAllowed := TrialMaxCameras,
        currentCameras := (st.getCamerasByTenant tid).length,
        camerasOverLimit :=
          if TrialMaxCameras < (st.getCamerasByTenant tid).length then
            (st.getCamerasByTenant tid).length - TrialMaxCameras
          else 0,
        actionRequired := decide (0 <
          if TrialMaxCameras < (st.getCamerasByTenant tid).length then
            (st.getCamerasByTenant tid).length - TrialMaxCameras
          else 0),
        actionMessage := getActionMessage
          (if TrialMaxCameras < (st.getCamerasByTenant tid).length then
            (st.getCamerasByTenant tid).length - TrialMaxCameras
          else 0) } := by
  simp only [revokeLicense, hsub]
  rw [if_neg hplan]

/-- Claim C6 (confirmed). Revocation over-limit outputs: every successful
`RevokeLicense` call with pre-revocation camera count `N` reports
`cameras_over_limit = max(0, N - TrialMaxCameras)`, `action_required`
exactly when that is positive, `cameras_allowed = 2`,
`current_cameras = N`, `days_remaining` (when present) floored at 0, and
the action message `""` / `"Please stop 1 camera to comply with trial
limits."` / `"Please stop K cameras to comply with trial limits."`
according to the over-limit count. -/
theorem C6_revocation_outputs (st : Store) (now : Nat) (tid : Ident)
    (sub : Subscription) (hsub : st.getSubscription tid = some sub)
    (hplan : sub.plan ≠ "trial") (r : RevokeResponse)
    (hr : (revokeLicense st now tid).2 = Except.ok r) :
    ((r.camerasOverLimit : Int) =
      max (((st.getCamerasByTenant tid).length : Int) - (TrialMaxCameras : Int)) 0) ∧
    (r.actionRequired = true ↔ 0 < r.camerasOverLimit) ∧
    r.camerasAllowed = TrialMaxCameras ∧
    r.currentCameras = (st.getCamerasByTenant tid).length ∧
    (∀ d, r.daysRemaining = some d → 0 ≤ d) ∧
    r.actionMessage =
      (if r.camerasOverLimit = 0 then ""
       else if r.camerasOverLimit = 1 then
         "Please stop 1 camera to comply with trial limits."
       else "Please stop " ++ toString r.camerasOverLimit ++
         " cameras to comply with trial limits.") := by
  rw [revoke_ok_resp st now tid sub hsub hplan] at hr
  have hreq := (Except.ok.inj hr).symm
  subst hreq
  refine ⟨?_, ?_, rfl, rfl, ?_, ?_⟩
  · show ((if TrialMaxCameras < (st.getCamerasByTenant tid).length then
        (st.getCamerasByTenant tid).length - TrialMaxCameras else 0 : Nat) : Int) =
      max (((st.getCamerasByTenant tid).length : Int) - (TrialMaxCameras : Int)) 0
    rw [max_def]
    split <;> split <;> omega
  · show decide (0 <
        if TrialMaxCameras < (st.getCamerasByTenant tid).length then
          (st.getCamerasByTenant tid).length - TrialMaxCameras else 0) = true ↔
      0 < (if TrialMaxCameras < (st.getCamerasByTenant tid).length then
          (st.getCamerasByTenant tid).length - TrialMaxCameras else 0)
    simp only [decide_eq_true_eq]
  · exact revokedDays_nonneg sub now
  · rfl

/-- Claim C6, witness: revoking the base subscription of a tenant with 5
registered cameras reports 3 cameras over limit, action required, and the
message "Please stop 3 cameras to comply with trial limits.". -/
theorem C6_witness :
    (((revokeLicense storeBaseFiveCams 1000 ['t']).2.toOption.map
        (fun r => (r.camerasOverLimit, r.actionRequired, r.camerasAllowed,
          r.currentCameras, r.actionMessage))) =
      some (3, true, 2, 5, "Please stop 3 cameras to comply with trial limits.")) ∧
    ((3 : Int) =
      max (((storeBaseFiveCams.getCamerasByTenant ['t']).length : Int) -
        (TrialMaxCameras : Int)) 0) := by
  have h := C6_revocation_outputs storeBaseFiveCams 1000 ['t'] subBaseWithTrialDates
    (by decide) (by decide)
    { success := true, message := "License revoked. Reverted to trial mode.",
      plan := "trial", status := "active",
      daysRemaining := some 0,
      trialExpired := false,
      camerasAllowed := 2, currentCameras := 5,
      camerasOverLimit := 3, actionRequired := true,
      actionMessage := "Please stop 3 cameras to comply with trial limits." }
    (by
      rw [revoke_ok_resp storeBaseFiveCams 1000 ['t'] subBaseWithTrialDates
        (by decide) (by decide)]
      exact congrArg Except.ok (by decide))
  exact ⟨by decide, h.1⟩

/-- Claim C7 (confirmed). Entitlement precedence: a feature in the static
base feature set resolves to enabled with the -1 unlimited quota and
valid-until `now + 1 year`, to a response that is a constant independent
of the store — growth packs and stored entitlements are not consulted.
Otherwise an enabled growth pack carrying the feature gives the same
response; otherwise a stored enabled entitlement is used; with no match,
the response is disabled with quota 0 and valid-until `now`. -/
theorem C7_entitlement_precedence (st : Store) (now : Nat) (tid : Ident)
    (category feature : String) :
    (baseHas category feature = true →
      checkEntitlement st now tid category feature =
        { isEnabled := true, quotaRemaining := -1, validUntil := addDate now 1 0 0 }) ∧
    (baseHas category feature = false →
      findPackFeature (st.getEnabledGrowthPacks tid) category feature = true →
      checkEntitlement st now tid category feature =
        { isEnabled := true, quotaRemaining := -1, validUntil := addDate now 1 0 0 }) ∧
    (baseHas category feature = false →
      findPackFeature (st.getEnabledGrowthPacks tid) category feature = false →
      ∀ ent, st.getEntitlement tid category feature = some ent → ent.isEnabled = true →
        checkEntitlement st now tid category feature =
          { isEnabled := true, quotaRemaining := entitlementQuota ent,
            validUntil := ent.validUntil.getD (addDate now 1 0 0) }) ∧
    (baseHas category feature = false →
      findPackFeature (st.getEnabledGrowthPacks tid) category feature = false →
      (∀ ent, st.getEntitlement tid category feature = some ent →
        ent.isEnabled = false) →
      checkEntitlement st now tid category feature =
        { isEnabled := false, quotaRemaining := 0, validUntil := now }) := by
  refine ⟨?_, ?_, ?_, ?_⟩
  · intro hb
    simp [checkEntitlement, hb]
  · intro hb hp
    simp [checkEntitlement, hb, hp]
  · intro hb hp ent hent hen
    simp [checkEntitlement, hb, hp, hent, hen]
  · intro hb hp hent
    rcases hcase : st.getEntitlement tid category feature with _ | ent
    · simp [checkEntitlement, hb, hp, hcase]
    · have hdis := hent ent hcase
      simp [checkEntitlement, hb, hp, hcase, hdis]

/-- Claim C7, witness: `analytics/detection` is a base feature even with
the Intelligence pack enabled and a stored entitlement present;
`llm/analyst_seat_full` resolves via the enabled Intelligence pack;
`llm/special_feature` resolves via the stored entitlement; `llm/nothing`
is not enabled. -/
theorem C7_witness :
    checkEntitlement
        { storeEntExpired with growthPacks := [(['t'], [packIntel])] } 1000 ['t']
        "analytics" "detection" =
      { isEnabled := true, quotaRemaining := -1, validUntil := addDate 1000 1 0 0 } ∧
    checkEntitlement
        { storeEntExpired with growthPacks := [(['t'], [packIntel])] } 1000 ['t']
        "llm" "analyst_seat_full" =
      { isEnabled := true, quotaRemaining := -1, validUntil := addDate 1000 1 0 0 } ∧
    checkEntitlement storeEntExpired 1000 ['t'] "llm" "special_feature" =
      { isEnabled := true, quotaRemaining := entitlementQuota entExpired,
        validUntil := entExpired.validUntil.getD (addDate 1000 1 0 0) } ∧
    checkEntitlement storeEntExpired 1000 ['t'] "llm" "nothing" =
      { isEnabled := false, quotaRemaining := 0, validUntil := 1000 } :=
  ⟨(C7_entitlement_precedence
      { storeEntExpired with growthPacks := [(['t'], [packIntel])] } 1000 ['t']
      "analytics" "detection").1 (by decide),
   (C7_entitlement_precedence
      { storeEntExpired with growthPacks := [(['t'], [packIntel])] } 1000 ['t']
      "llm" "analyst_seat_full").2.1 (by decide) (by decide),
   (C7_entitlement_precedence storeEntExpired 1000 ['t'] "llm" "special_feature").2.2.1
      (by decide) (by decide) entExpired (by decide) (by decide),
   (C7_entitlement_precedence storeEntExpired 1000 ['t'] "llm" "nothing").2.2.2
      (by decide) (by decide)
      (by
        intro ent hent
        have hn : storeEntExpired.getEntitlement ['t'] "llm" "nothing" = none := by decide
        rw [hn] at hent
        exact absurd hent (by simp))⟩

/-- Claim C8 (amended). Pricing computation: `calculatePricing` is a pure
function returning `base_cost = N * 14.99`, per-pack costs given by
`packCost` (the custom price when set AND strictly positive, else the
catalog price by name, else 0), `growth_pack_cost` the sum of the per-pack
costs, `total_monthly = base_cost + growth_pack_cost`, and currency
`"AUD"`; determinism is immediate since the embedding is a function of its
arguments. -/
theorem C8_pricing (n : Nat) (packs : List GrowthPackAssignment) :
    (calculatePricing n packs).baseCost = n * BasePerCameraRate ∧
    (calculatePricing n packs).perCameraRate = BasePerCameraRate ∧
    (calculatePricing n packs).cameraCount = n ∧
    (calculatePricing n packs).growthPackCost = (packs.map packCost).sum ∧
    (∀ pack, packCost pack =
      match pack.priceMonthly with
      | some p => if 0 < p then p else getGrowthPackPrice pack.packName
      | none => getGrowthPackPrice pack.packName) ∧
    (calculatePricing n packs).totalMonthly =
      (calculatePricing n packs).baseCost + (calculatePricing n packs).growthPackCost ∧
    (calculatePricing n packs).currency = "AUD" := by
  refine ⟨rfl, rfl, rfl, rfl, ?_, rfl, rfl⟩
  intro pack
  rfl

/-- Claim C8, counterexample to the claim as stated: an assignment whose
custom price is set to 0 is charged the catalog price 29, not its custom
price — the code uses the custom price only when it is strictly
positive. -/
theorem C8_counterexample :
    packZeroPrice.priceMonthly = some 0 ∧
    (calculatePricing 3 [packZeroPrice]).growthPackCost = 29 ∧ (29 : ℚ) ≠ 0 := by
  refine ⟨rfl, ?_, by norm_num⟩
  show ([packZeroPrice].map packCost).sum = 29
  norm_num [packCost, packZeroPrice, getGrowthPackPrice, AvailableGrowthPacks]

/-- Claim C9 (confirmed). Tenant camera isolation fails for tenants whose
id is a proper initial segment of another tenant's id: a camera license
saved for the longer tenant is listed (and therefore counted) by
`GetCamerasByTenant` of the shorter tenant, because the key filter only
compares the leading characters of the storage key; concretely, saving a
camera for tenant `ab` flips tenant `a`'s trial camera-limit check in
`ValidateLicense` from valid to invalid. -/
theorem C9_prefix_tenant_leak :
    (∀ (st : Store) (t1 t2 cid : Ident) (lic : CameraLicense),
      (∃ s, t2 = t1 ++ s) → t1.length < t2.length →
      lic.tenantId = t2 → lic.cameraId = cid →
      lic ∈ (st.saveCameraLicense lic).getCamerasByTenant t1) ∧
    ((validateLicense storeOneCamA 1000 "s" "l" ['a'] ['c', '2'] "d").2.isValid = true ∧
     (validateLicense (storeOneCamA.saveCameraLicense (mkCamera ['a', 'b'] ['x'])) 1000
        "s" "l" ['a'] ['c', '2'] "d").2.isValid = false) := by
  constructor
  · rintro st t1 t2 cid lic ⟨s, hs⟩ hlen htid hcid
    have hkey : matchesTenantKey t1 (cameraKey lic.cameraId lic.tenantId) = true := by
      unfold matchesTenantKey cameraKey
      rw [htid, hs, Bool.and_eq_true]
      refine ⟨?_, ?_⟩
      · refine decide_eq_true ?_
        simp only [List.length_append, List.length_cons]
        omega
      · refine decide_eq_true ?_
        rw [List.append_assoc, List.take_left]
    unfold Store.getCamerasByTenant Store.saveCameraLicense
    refine List.mem_map.2 ⟨(cameraKey lic.cameraId lic.tenantId, lic), ?_, rfl⟩
    refine List.mem_filter.2 ⟨?_, hkey⟩
    exact mem_setAssoc_self _ _ _
  · exact ⟨by decide, by decide⟩

/-- Claim C9, witness: the general leak applied to the empty store — the
camera saved for tenant `ab` is listed for tenant `a`. -/
theorem C9_witness :
    mkCamera ['a', 'b'] ['x'] ∈
      (emptyStore.saveCameraLicense (mkCamera ['a', 'b'] ['x'])).getCamerasByTenant ['a'] :=
  C9_prefix_tenant_leak.1 emptyStore ['a'] ['a', 'b'] ['x'] (mkCamera ['a', 'b'] ['x'])
    ⟨['b'], rfl⟩ (by decide) rfl rfl

/-- Claim C10 (confirmed). Expired stored entitlements still grant access:
when a feature is neither a base feature nor carried by an enabled growth
pack, a stored entitlement with `is_enabled = true` makes
`CheckEntitlement` return `is_enabled = true` and the stored
`valid_until` unchanged, even when that `valid_until` is already in the
past — the stored-entitlement branch never checks expiry. -/
theorem C10_expired_entitlement_grants (st : Store) (now : Nat) (tid : Ident)
    (category feature : String) (ent : FeatureEntitlement) (v : Nat)
    (hbase : baseHas category feature = false)
    (hpack : findPackFeature (st.getEnabledGrowthPacks tid) category feature = false)
    (hent : st.getEntitlement tid category feature = some ent)
    (hen : ent.isEnabled = true)
    (hvu : ent.validUntil = some v) (hpast : v < now) :
    (checkEntitlement st now tid category feature).isEnabled = true ∧
    (checkEntitlement st now tid category feature).validUntil = v := by
  simp [checkEntitlement, hbase, hpack, hent, hen, hvu]

/-- Claim C10, witness: the stored enabled entitlement
`llm/special_feature` with `valid_until = 100` still reports enabled, and
returns 100 unchanged, at call time 1000. -/
theorem C10_witness :
    (checkEntitlement storeEntExpired 1000 ['t'] "llm" "special_feature").isEnabled =
      true ∧
    (checkEntitlement storeEntExpired 1000 ['t'] "llm" "special_feature").validUntil =
      100 :=
  C10_expired_entitlement_grants storeEntExpired 1000 ['t'] "llm" "special_feature"
    entExpired 100 (by decide) (by decide) (by decide) (by decide) (by decide)
    (by decide)
